import Mathlib

/-!
Verification development for the PyApple client library: the typed
response-normalization layer (src/pyapple/interface/ios.py), the operation
set and dual-mode calling facade (src/pyapple/client.py), and the OTA
documentation lookup (src/pyapple/src/ipsw.py).

Decoded JSON payloads are modelled by `JVal`; Python exceptions raised during
normalization are modelled by `PyError`; `datetime` objects by `PyDateTime`.
-/

/-- A generic decoded JSON value, as handed to the normalizer by the transport.
`pynone` is Python's `None`. Objects keep key insertion order, keys unique. -/
inductive JVal where
  | str (s : String)
  | int (n : Int)
  | bool (b : Bool)
  | pynone
  | list (xs : List JVal)
  | obj (m : List (String × JVal))

/-- Python exceptions observable from the normalization layer.
`missingArgs r fs`: the TypeError raised by a dataclass `__init__` when required
arguments `fs` are missing; modern CPython's message carries the qualified name
(record type `r`) and every missing field name, in parameter order.
`unexpectedKw r f`: the TypeError for an unexpected keyword argument `f`. -/
inductive PyError where
  | valueError
  | typeError
  | keyError (k : String)
  | missingArgs (record : String) (fields : List String)
  | unexpectedKw (record : String) (field : String)
deriving DecidableEq, Repr

/-- A `datetime.datetime` value. `tzutc = true` models `tzinfo = dateutil.tz.tzutc()`
having been attached; `strptime` itself yields a naive value (`tzutc = false`). -/
structure PyDateTime where
  year : Nat
  month : Nat
  day : Nat
  hour : Nat
  minute : Nat
  second : Nat
  tzutc : Bool
deriving DecidableEq, Repr

/-- Numeric value of an ASCII digit character. -/
def cv (c : Char) : Nat := c.toNat - 48

/-- ASCII digit test (CPython's `\d` is Unicode-wide; payload strings here are
modelled at ASCII fidelity). -/
def isD (c : Char) : Prop := 48 ≤ c.toNat ∧ c.toNat ≤ 57

instance (c : Char) : Decidable (isD c) := by unfold isD; infer_instance

/-!
`datetime.strptime(time, "%Y-%m-%dT%H:%M:%SZ")` compiles (CPython `_strptime`)
to the regex `\d\d\d\d-(1[0-2]|0[1-9]|[1-9])-(3[01]|[12]\d|0[1-9]|[1-9])T`
`(2[0-3]|[0-1]\d|\d):([0-5]\d|\d):(6[01]|[0-5]\d|\d)Z` under IGNORECASE,
anchored at the start, with a full-length check afterwards.  Because every
numeric group is followed by a non-digit literal separator, the regex engine
never needs to backtrack out of a successfully matched alternative here, so
each group is faithfully a first-match-wins cascade.
-/

/-- `%Y`: exactly four digits. -/
def parse4 : List Char → Option (Nat × List Char)
  | c1 :: c2 :: c3 :: c4 :: rest =>
    if isD c1 ∧ isD c2 ∧ isD c3 ∧ isD c4 then
      some ((((cv c1) * 10 + cv c2) * 10 + cv c3) * 10 + cv c4, rest)
    else Option.none
  | _ => Option.none

/-- `%m`: `1[0-2]|0[1-9]|[1-9]`. -/
def parseMonth : List Char → Option (Nat × List Char)
  | [] => Option.none
  | [c1] => if 49 ≤ c1.toNat ∧ c1.toNat ≤ 57 then some (cv c1, []) else Option.none
  | c1 :: c2 :: rest =>
    if c1.toNat = 49 ∧ 48 ≤ c2.toNat ∧ c2.toNat ≤ 50 then some (10 + cv c2, rest)
    else if c1.toNat = 48 ∧ 49 ≤ c2.toNat ∧ c2.toNat ≤ 57 then some (cv c2, rest)
    else if 49 ≤ c1.toNat ∧ c1.toNat ≤ 57 then some (cv c1, c2 :: rest)
    else Option.none

/-- `%d`: `3[01]|[12]\d|0[1-9]|[1-9]`. -/
def parseDay : List Char → Option (Nat × List Char)
  | [] => Option.none
  | [c1] => if 49 ≤ c1.toNat ∧ c1.toNat ≤ 57 then some (cv c1, []) else Option.none
  | c1 :: c2 :: rest =>
    if c1.toNat = 51 ∧ 48 ≤ c2.toNat ∧ c2.toNat ≤ 49 then some (30 + cv c2, rest)
    else if 49 ≤ c1.toNat ∧ c1.toNat ≤ 50 ∧ isD c2 then some ((cv c1) * 10 + cv c2, rest)
    else if c1.toNat = 48 ∧ 49 ≤ c2.toNat ∧ c2.toNat ≤ 57 then some (cv c2, rest)
    else if 49 ≤ c1.toNat ∧ c1.toNat ≤ 57 then some (cv c1, c2 :: rest)
    else Option.none

/-- `%H`: `2[0-3]|[0-1]\d|\d`. -/
def parseHour : List Char → Option (Nat × List Char)
  | [] => Option.none
  | [c1] => if isD c1 then some (cv c1, []) else Option.none
  | c1 :: c2 :: rest =>
    if c1.toNat = 50 ∧ 48 ≤ c2.toNat ∧ c2.toNat ≤ 51 then some (20 + cv c2, rest)
    else if 48 ≤ c1.toNat ∧ c1.toNat ≤ 49 ∧ isD c2 then some ((cv c1) * 10 + cv c2, rest)
    else if isD c1 then some (cv c1, c2 :: rest)
    else Option.none

/-- `%M`: `[0-5]\d|\d`. -/
def parseMinute : List Char → Option (Nat × List Char)
  | [] => Option.none
  | [c1] => if isD c1 then some (cv c1, []) else Option.none
  | c1 :: c2 :: rest =>
    if 48 ≤ c1.toNat ∧ c1.toNat ≤ 53 ∧ isD c2 then some ((cv c1) * 10 + cv c2, rest)
    else if isD c1 then some (cv c1, c2 :: rest)
    else Option.none

/-- `%S`: `6[01]|[0-5]\d|\d` (60 and 61 match and are later rejected by the
`datetime` constructor). -/
def parseSecond : List Char → Option (Nat × List Char)
  | [] => Option.none
  | [c1] => if isD c1 then some (cv c1, []) else Option.none
  | c1 :: c2 :: rest =>
    if c1.toNat = 54 ∧ 48 ≤ c2.toNat ∧ c2.toNat ≤ 49 then some (60 + cv c2, rest)
    else if 48 ≤ c1.toNat ∧ c1.toNat ≤ 53 ∧ isD c2 then some ((cv c1) * 10 + cv c2, rest)
    else if isD c1 then some (cv c1, c2 :: rest)
    else Option.none

/-- A literal character of the format string; the pattern is compiled with
IGNORECASE, so `T` and `Z` also match `t` and `z`. -/
def parseLit (target : Char) : List Char → Option (List Char)
  | c :: rest =>
    if c = target ∨ (target = 'T' ∧ c = 't') ∨ (target = 'Z' ∧ c = 'z') then some rest
    else Option.none
  | [] => Option.none

/-- The whole anchored pattern for `"%Y-%m-%dT%H:%M:%SZ"`, including the
full-length check (`len(data_string) == found.end()`). Produces a naive
datetime candidate (range checks of the `datetime` constructor come after). -/
def runFmt (l : List Char) : Option PyDateTime :=
  (parse4 l).bind fun p1 =>
  (parseLit '-' p1.2).bind fun l2 =>
  (parseMonth l2).bind fun p2 =>
  (parseLit '-' p2.2).bind fun l4 =>
  (parseDay l4).bind fun p3 =>
  (parseLit 'T' p3.2).bind fun l6 =>
  (parseHour l6).bind fun p4 =>
  (parseLit ':' p4.2).bind fun l8 =>
  (parseMinute l8).bind fun p5 =>
  (parseLit ':' p5.2).bind fun l10 =>
  (parseSecond l10).bind fun p6 =>
  (parseLit 'Z' p6.2).bind fun l12 =>
  if l12 = [] then some ⟨p1.1, p2.1, p3.1, p4.1, p5.1, p6.1, false⟩ else Option.none

/-- Gregorian leap-year rule, as `datetime` uses. -/
def isLeap (y : Nat) : Bool := y % 4 == 0 && (y % 100 != 0 || y % 400 == 0)

def daysInMonth (y m : Nat) : Nat :=
  if m = 2 then (if isLeap y then 29 else 28)
  else if m = 4 ∨ m = 6 ∨ m = 9 ∨ m = 11 then 30
  else 31

/-- The range checks of the `datetime.datetime` constructor. -/
def validDT (dt : PyDateTime) : Prop :=
  1 ≤ dt.year ∧ dt.year ≤ 9999 ∧ 1 ≤ dt.month ∧ dt.month ≤ 12 ∧
  1 ≤ dt.day ∧ dt.day ≤ daysInMonth dt.year dt.month ∧
  dt.hour ≤ 23 ∧ dt.minute ≤ 59 ∧ dt.second ≤ 59

instance (dt : PyDateTime) : Decidable (validDT dt) := by unfold validDT; infer_instance

/-- `datetime.strptime(s, "%Y-%m-%dT%H:%M:%SZ")`: regex mismatch raises
ValueError; out-of-range components raise ValueError from the constructor. -/
def strptimeZ (s : String) : Except PyError PyDateTime :=
  match runFmt s.data with
  | some dt => if validDT dt then .ok dt else .error .valueError
  | Option.none => .error .valueError

/-- `to_dt` from src/pyapple/interface/ios.py: `None` is returned unchanged
(early return); otherwise `strptime` then `replace(tzinfo=tz.tzutc())`. -/
def to_dt : Option String → Except PyError (Option PyDateTime)
  | Option.none => .ok Option.none
  | some s => (strptimeZ s).map (fun dt => some { dt with tzutc := true })

/-- `to_dt` applied to a raw payload value, as `__post_init__` does: `None`
passes through, a string is parsed, anything else makes `strptime` raise
TypeError. -/
def to_dtJ : JVal → Except PyError (Option PyDateTime)
  | .pynone => to_dt Option.none
  | .str s => to_dt (some s)
  | _ => .error .typeError

/-- The spec's words: a string exactly in the fixed format
`YYYY-MM-DDTHH:MM:SSZ` — four-digit year, zero-padded two-digit month, day,
hour, minute and second with calendar-valid values, capital `T` and `Z`.
Stated from the spec for comparison with the code's parser. -/
def specExactFormat (s : String) : Bool :=
  match s.data with
  | [y1, y2, y3, y4, a1, m1, m2, a2, d1, d2, tl, h1, h2, b1, n1, n2, b2, s1, s2, zl] =>
    decide (isD y1 ∧ isD y2 ∧ isD y3 ∧ isD y4 ∧ isD m1 ∧ isD m2 ∧ isD d1 ∧ isD d2 ∧
      isD h1 ∧ isD h2 ∧ isD n1 ∧ isD n2 ∧ isD s1 ∧ isD s2 ∧
      a1 = '-' ∧ a2 = '-' ∧ tl = 'T' ∧ b1 = ':' ∧ b2 = ':' ∧ zl = 'Z' ∧
      (let yv := ((cv y1 * 10 + cv y2) * 10 + cv y3) * 10 + cv y4
       let mv := cv m1 * 10 + cv m2
       1 ≤ yv ∧ 1 ≤ mv ∧ mv ≤ 12 ∧ 1 ≤ cv d1 * 10 + cv d2 ∧
       cv d1 * 10 + cv d2 ≤ daysInMonth yv mv ∧
       cv h1 * 10 + cv h2 ≤ 23 ∧ cv n1 * 10 + cv n2 ≤ 59 ∧ cv s1 * 10 + cv s2 ≤ 59))
  | _ => false

/-- Last decimal digit as a character. -/
def dc (n : Nat) : Char :=
  match n % 10 with
  | 0 => '0' | 1 => '1' | 2 => '2' | 3 => '3' | 4 => '4'
  | 5 => '5' | 6 => '6' | 7 => '7' | 8 => '8' | _ => '9'

def pad2 (n : Nat) : List Char := [dc (n / 10), dc n]

def pad4 (n : Nat) : List Char := [dc (n / 1000), dc (n / 100), dc (n / 10), dc n]

/-- The canonical string exactly in the spec's `YYYY-MM-DDTHH:MM:SSZ` format
with the given components. -/
def fmtZ (Y M D h m s : Nat) : String :=
  String.mk (pad4 Y ++ ('-' :: (pad2 M ++ ('-' :: (pad2 D ++ ('T' :: (pad2 h ++
    (':' :: (pad2 m ++ (':' :: (pad2 s ++ ['Z'])))))))))))

/-!
Record types from src/pyapple/interface/ios.py. Dataclass construction is
duck-typed: only the date fields are transformed (`__post_init__`); every
other field stores the payload value unchanged, so those fields are `JVal`.
-/

/-- Dataclass `IPSW` (Firmware). -/
structure IPSW where
  identifier : JVal
  buildid : JVal
  version : JVal
  url : JVal
  filesize : JVal
  sha1sum : JVal
  md5sum : JVal
  releasedate : Option PyDateTime
  uploaddate : Option PyDateTime
  signed : JVal

/-- Dataclass `FirmwareKeys` (per-image Key; exported as `Keys`/`KeysObject`). -/
structure FirmwareKeys where
  image : JVal
  filename : JVal
  kbag : JVal
  key : JVal
  iv : JVal
  date : Option PyDateTime

/-- Dataclass `OTA` (OTAFirmware; exported as `OTAIPSW`). -/
structure OTA where
  identifier : JVal
  buildid : JVal
  version : JVal
  url : JVal
  filesize : JVal
  prerequisitebuildid : JVal
  prerequisiteversion : JVal
  release_type : JVal
  uploaddate : Option PyDateTime
  releasedate : Option PyDateTime
  signed : JVal

/-- A value stored in a field of a composite record: either a raw payload
value, or a list of typed sub-records substituted in by the operation
(`data["firmwares"] = firmware_list`, `data["keys"] = key_list`). -/
inductive PyVal where
  | j (v : JVal)
  | ipswList (xs : List IPSW)
  | keyList (xs : List FirmwareKeys)

/-- Dataclass `DeviceKeys` (KeySet; exported as `IPSWKeys`). No
`__post_init__`: nothing is transformed, the `keys` field holds whatever was
passed. -/
structure DeviceKeys where
  identifier : PyVal
  buildid : PyVal
  codename : PyVal
  baseband : PyVal
  updateramdiskexists : PyVal
  restoreramdiskexists : PyVal
  keys : PyVal

/-- Dataclass `iDevice` (Device). No `__post_init__`. -/
structure iDevice where
  name : PyVal
  identifier : PyVal
  boardconfig : PyVal
  platform : PyVal
  cpid : PyVal
  bdid : PyVal
  firmwares : PyVal
  boards : PyVal

/-- CPython keyword-argument binding for a dataclass `__init__` called as
`Record(**m)`: the first key that is not a declared parameter raises the
unexpected-keyword TypeError; otherwise, if any declared parameters are
missing (none of these dataclasses declare defaults), a TypeError naming the
record type and every missing parameter, in declaration order, is raised. -/
def checkArgs {α : Type} (recName : String) (slots : List String)
    (m : List (String × α)) : Except PyError Unit :=
  match m.find? (fun kv => !(slots.contains kv.1)) with
  | some kv => .error (.unexpectedKw recName kv.1)
  | Option.none =>
    match slots.filter (fun f => !((m.map Prod.fst).contains f)) with
    | [] => .ok ()
    | miss => .error (.missingArgs recName miss)

/-- Field access after a successful `checkArgs` (every slot is present then;
the default is unreachable). -/
def getF {α : Type} (m : List (String × α)) (f : String) (dflt : α) : α :=
  match m.find? (fun kv => kv.1 == f) with
  | some kv => kv.2
  | Option.none => dflt

/-- Python `data[k]` on a dict: KeyError when absent. -/
def pyLookup (m : List (String × JVal)) (k : String) : Except PyError JVal :=
  match m.find? (fun kv => kv.1 == k) with
  | some kv => .ok kv.2
  | Option.none => .error (.keyError k)

/-- Python `data[k] = v` on a dict: replaces in place (key position kept),
appends when the key is new. -/
def setKey (m : List (String × PyVal)) (k : String) (v : PyVal) :
    List (String × PyVal) :=
  if m.any (fun kv => kv.1 == k) then m.map (fun kv => if kv.1 == k then (kv.1, v) else kv)
  else m ++ [(k, v)]

/-- Lift a decoded JSON mapping to a mapping of field values. -/
def liftMap (m : List (String × JVal)) : List (String × PyVal) :=
  m.map (fun kv => (kv.1, PyVal.j kv.2))

/-- Python iteration `for x in data`: lists yield elements, dicts yield their
keys, strings yield their characters; other payloads raise TypeError. -/
def pyIter : JVal → Except PyError (List JVal)
  | .list xs => .ok xs
  | .obj m => .ok (m.map (fun kv => .str kv.1))
  | .str s => .ok (s.data.map (fun c => .str (String.mk [c])))
  | _ => .error .typeError

/-- `Record(**x)` needs `x` to be a mapping. -/
def jAsObj : JVal → Except PyError (List (String × JVal))
  | .obj m => .ok m
  | _ => .error .typeError

/-- A Python list comprehension `[f x for x in xs]`: left to right, the first
raised error propagates. -/
def buildList {α β : Type} (f : α → Except PyError β) :
    List α → Except PyError (List β)
  | [] => .ok []
  | x :: xs => do
    let y ← f x
    let ys ← buildList f xs
    .ok (y :: ys)

def ipswSlots : List String :=
  ["identifier", "buildid", "version", "url", "filesize", "sha1sum", "md5sum",
   "releasedate", "uploaddate", "signed"]

/-- `IPSW(**m)`: bind arguments, then `__post_init__` normalizes
`releasedate` and `uploaddate` (in that order) through `to_dt`. -/
def mkIPSW (m : List (String × JVal)) : Except PyError IPSW := do
  checkArgs "IPSW" ipswSlots m
  let rd ← to_dtJ (getF m "releasedate" .pynone)
  let ud ← to_dtJ (getF m "uploaddate" .pynone)
  pure { identifier := getF m "identifier" .pynone, buildid := getF m "buildid" .pynone,
         version := getF m "version" .pynone, url := getF m "url" .pynone,
         filesize := getF m "filesize" .pynone, sha1sum := getF m "sha1sum" .pynone,
         md5sum := getF m "md5sum" .pynone, releasedate := rd, uploaddate := ud,
         signed := getF m "signed" .pynone }

def keysSlots : List String := ["image", "filename", "kbag", "key", "iv", "date"]

/-- `FirmwareKeys(**m)` (aka `KeysObject`/`Keys`): `__post_init__` normalizes
`date`. -/
def mkFirmwareKeys (m : List (String × JVal)) : Except PyError FirmwareKeys := do
  checkArgs "FirmwareKeys" keysSlots m
  let d ← to_dtJ (getF m "date" .pynone)
  pure { image := getF m "image" .pynone, filename := getF m "filename" .pynone,
         kbag := getF m "kbag" .pynone, key := getF m "key" .pynone,
         iv := getF m "iv" .pynone, date := d }

def otaSlots : List String :=
  ["identifier", "buildid", "version", "url", "filesize", "prerequisitebuildid",
   "prerequisiteversion", "release_type", "uploaddate", "releasedate", "signed"]

/-- `OTA(**m)` (aka `OTAIPSW`): `__post_init__` normalizes `releasedate` then
`uploaddate`. -/
def mkOTA (m : List (String × JVal)) : Except PyError OTA := do
  checkArgs "OTA" otaSlots m
  let rd ← to_dtJ (getF m "releasedate" .pynone)
  let ud ← to_dtJ (getF m "uploaddate" .pynone)
  pure { identifier := getF m "identifier" .pynone, buildid := getF m "buildid" .pynone,
         version := getF m "version" .pynone, url := getF m "url" .pynone,
         filesize := getF m "filesize" .pynone,
         prerequisitebuildid := getF m "prerequisitebuildid" .pynone,
         prerequisiteversion := getF m "prerequisiteversion" .pynone,
         release_type := getF m "release_type" .pynone,
         uploaddate := ud, releasedate := rd, signed := getF m "signed" .pynone }

def deviceKeysSlots : List String :=
  ["identifier", "buildid", "codename", "baseband", "updateramdiskexists",
   "restoreramdiskexists", "keys"]

/-- `DeviceKeys(**m)` (aka `IPSWKeys`): no `__post_init__`, fields stored as
passed. -/
def mkDeviceKeys (m : List (String × PyVal)) : Except PyError DeviceKeys := do
  checkArgs "DeviceKeys" deviceKeysSlots m
  pure { identifier := getF m "identifier" (.j .pynone),
         buildid := getF m "buildid" (.j .pynone),
         codename := getF m "codename" (.j .pynone),
         baseband := getF m "baseband" (.j .pynone),
         updateramdiskexists := getF m "updateramdiskexists" (.j .pynone),
         restoreramdiskexists := getF m "restoreramdiskexists" (.j .pynone),
         keys := getF m "keys" (.j .pynone) }

def iDeviceSlots : List String :=
  ["name", "identifier", "boardconfig", "platform", "cpid", "bdid", "firmwares",
   "boards"]

/-- `iDevice(**m)`: no `__post_init__`. -/
def mkiDevice (m : List (String × PyVal)) : Except PyError iDevice := do
  checkArgs "iDevice" iDeviceSlots m
  pure { name := getF m "name" (.j .pynone),
         identifier := getF m "identifier" (.j .pynone),
         boardconfig := getF m "boardconfig" (.j .pynone),
         platform := getF m "platform" (.j .pynone),
         cpid := getF m "cpid" (.j .pynone), bdid := getF m "bdid" (.j .pynone),
         firmwares := getF m "firmwares" (.j .pynone),
         boards := getF m "boards" (.j .pynone) }

/-!
The operation set from src/pyapple/client.py (class `HALFTIME`). Each method
awaits the transport (`Parser.ipsw`) for its endpoint and normalizes the
decoded payload; operations are modelled as pure functions of that decoded
response.
-/

namespace HALFTIME

/-- `HALFTIME.device`: read `data["firmwares"]`, build an `IPSW` per element,
substitute the typed list back, construct `iDevice`. -/
def device (resp : JVal) : Except PyError iDevice := do
  let data ← jAsObj resp
  let fwv ← pyLookup data "firmwares"
  let items ← pyIter fwv
  let firmware_list ← buildList (fun x => jAsObj x >>= mkIPSW) items
  mkiDevice (setKey (liftMap data) "firmwares" (.ipswList firmware_list))

/-- `HALFTIME.ipsw`: single-record normalization. -/
def ipsw (resp : JVal) : Except PyError IPSW :=
  jAsObj resp >>= mkIPSW

/-- `HALFTIME.ipsw_version`: `[IPSW(**firmware) for firmware in data]`. -/
def ipsw_version (resp : JVal) : Except PyError (List IPSW) := do
  let items ← pyIter resp
  buildList (fun x => jAsObj x >>= mkIPSW) items

/-- `HALFTIME.keys_device`: `[IPSWKeys(**keys) for keys in data]` — note the
nested `keys` lists are NOT converted here; they are stored raw. -/
def keys_device (resp : JVal) : Except PyError (List DeviceKeys) := do
  let items ← pyIter resp
  buildList (fun x => jAsObj x >>= fun m => mkDeviceKeys (liftMap m)) items

/-- `HALFTIME.keys`: read `data["keys"]`, build a `KeysObject` per element,
substitute the typed list back, construct `IPSWKeys`. -/
def keys (resp : JVal) : Except PyError DeviceKeys := do
  let data ← jAsObj resp
  let kv ← pyLookup data "keys"
  let items ← pyIter kv
  let key_list ← buildList (fun x => jAsObj x >>= mkFirmwareKeys) items
  mkDeviceKeys (setKey (liftMap data) "keys" (.keyList key_list))

/-- `HALFTIME.ota`: single-record normalization. -/
def ota (resp : JVal) : Except PyError OTA :=
  jAsObj resp >>= mkOTA

/-- `HALFTIME.ota_version`: `[OTAIPSW(**ota) for ota in data]`. -/
def ota_version (resp : JVal) : Except PyError (List OTA) := do
  let items ← pyIter resp
  buildList (fun x => jAsObj x >>= mkOTA) items

end HALFTIME

/-- `IPSW.ota_docs` from src/pyapple/src/ipsw.py: fetches the documentation
as plain text, then executes `print(data)` and falls off the end of the
function. First component: the value returned to the caller (Python's
implicit `None`); second component: the lines printed to stdout. -/
def ota_docs (respText : String) : Option String × List String :=
  (Option.none, [respText])

/-!
The dual-mode facade, src/pyapple/client.py class `Client`.
`__getattribute__` resolves an invoked name; coroutine functions are wrapped
in `functools.partial(self.__run_coroutine, attribute)`, so calling the
operation lands in `__run_coroutine`, which checks `self.loop.is_running()`.
-/

/-- The operation set reachable through the facade, with the fixed argument
tuple of each call. -/
inductive Op where
  | device (identifier : String)
  | ipsw (identifier : String) (buildid : String)
  | ipsw_version (version : String)
  | keys_device (identifier : String)
  | keys (identifier : String) (buildid : String)
  | ota (identifier : String) (buildid : String)
  | ota_version (version : String)

/-- Endpoint template substitution (the f-strings in each method). -/
def Op.endpoint : Op → String
  | .device i => "/device/" ++ i
  | .ipsw i b => "/ipsw/" ++ i ++ "/" ++ b
  | .ipsw_version v => "/ipsw/" ++ v
  | .keys_device i => "/keys/device/" ++ i
  | .keys i b => "/keys/ipsw/" ++ i ++ "/" ++ b
  | .ota i b => "/ota/" ++ i ++ "/" ++ b
  | .ota_version v => "/ota/" ++ v

/-- The typed result of an operation. -/
inductive OpResult where
  | device (d : iDevice)
  | ipsw (x : IPSW)
  | ipswList (xs : List IPSW)
  | keySet (k : DeviceKeys)
  | keySetList (ks : List DeviceKeys)
  | ota (x : OTA)
  | otaList (xs : List OTA)

/-- Driving one operation's coroutine to completion against a fixed decoded
transport response: what `await` (or `run_until_complete`) of the method's
coroutine produces. -/
def execOp (op : Op) (resp : JVal) : Except PyError OpResult :=
  match op with
  | .device _ => (HALFTIME.device resp).map .device
  | .ipsw _ _ => (HALFTIME.ipsw resp).map .ipsw
  | .ipsw_version _ => (HALFTIME.ipsw_version resp).map .ipswList
  | .keys_device _ => (HALFTIME.keys_device resp).map .keySetList
  | .keys _ _ => (HALFTIME.keys resp).map .keySet
  | .ota _ _ => (HALFTIME.ota resp).map .ota
  | .ota_version _ => (HALFTIME.ota_version resp).map .otaList

/-- What a facade invocation hands back: either the finished result of the
driven coroutine (an error in it is raised at the call site), or a pending,
not-yet-executed coroutine object to be awaited by the caller. -/
inductive Dispatched (α : Type) where
  | finished (r : Except PyError α)
  | pending (t : Unit → Except PyError α)

/-- Awaiting a pending coroutine object runs it. -/
def awaitPending {α : Type} (t : Unit → Except PyError α) : Except PyError α :=
  t ()

/-- `Client.__run_coroutine`: if `self.loop.is_running()` return the bare
coroutine object `coroutine(*args, **kwargs)` (lazy, not started); otherwise
`self.loop.run_until_complete(coroutine(*args, **kwargs))`. -/
def runCoroutine {α : Type} (loopRunning : Bool) (coro : Unit → Except PyError α) :
    Dispatched α :=
  if loopRunning then .pending coro else .finished (coro ())

/-- Invoking an operation through the facade: `__getattribute__` wraps the
coroutine function, and the call goes through `__run_coroutine` exactly once,
deciding on the scheduler state at invocation time. -/
def Client.invoke (loopRunning : Bool) (op : Op) (resp : JVal) : Dispatched OpResult :=
  runCoroutine loopRunning (fun _ => execOp op resp)

/-!
Thread-local scheduler acquisition, for `Client.__init__` /
`asyncio.get_event_loop()`: the thread either already has an event loop (it
is returned) or a fresh one is constructed, registered and returned.
-/

/-- The calling thread's event-loop state: the loop currently set on the
thread (if any), how many loop constructions have happened, and a counter
for fresh loop identities. -/
structure LoopEnv where
  existing : Option Nat
  created : Nat
  nextId : Nat

/-- `asyncio.get_event_loop()`. -/
def get_event_loop (e : LoopEnv) : Nat × LoopEnv :=
  match e.existing with
  | some l => (l, e)
  | Option.none =>
    (e.nextId, { existing := some e.nextId, created := e.created + 1, nextId := e.nextId + 1 })

/-- The scheduler handle held by a `Client` instance. -/
structure ClientState where
  loop : Nat

/-- `Client.__init__`: `self.loop = asyncio.get_event_loop()`. -/
def clientInit (e : LoopEnv) : ClientState × LoopEnv :=
  let p := get_event_loop e
  (⟨p.1⟩, p.2)

/-- One blocking call: `self.loop.run_until_complete(...)` drives the stored
loop; no loop is acquired or constructed. Returns the loop that drove the
call. -/
def blockingCall (c : ClientState) (e : LoopEnv) : Nat × LoopEnv :=
  (c.loop, e)

/-- A sequence of `n` blocking calls through the same facade instance on the
same thread; returns the loop ids that drove each call. -/
def runBlockingCalls (c : ClientState) (e : LoopEnv) : Nat → List Nat × LoopEnv
  | 0 => ([], e)
  | n + 1 =>
    let p := blockingCall c e
    let q := runBlockingCalls c p.2 n
    (p.1 :: q.1, q.2)

/-! Arithmetic facts about the digit printer and the format parsers. -/

theorem dc_toNat (n : Nat) : (dc n).toNat = 48 + n % 10 := by
  have h : n % 10 < 10 := Nat.mod_lt _ (by omega)
  unfold dc
  set k := n % 10 with hk
  interval_cases k <;> rfl

theorem parse4_pad (Y : Nat) (hY : Y ≤ 9999) (r : List Char) :
    parse4 (pad4 Y ++ r) = some (Y, r) := by
  have e1 := dc_toNat (Y / 1000)
  have e2 := dc_toNat (Y / 100)
  have e3 := dc_toNat (Y / 10)
  have e4 := dc_toNat Y
  simp only [pad4, List.cons_append, List.nil_append, parse4, cv, isD]
  rw [e1, e2, e3, e4, if_pos]
  · simp only [Option.some.injEq, Prod.mk.injEq]
    exact ⟨by omega, trivial⟩
  · omega

theorem parseMonth_pad (M : Nat) (h1 : 1 ≤ M) (h2 : M ≤ 12) (r : List Char) :
    parseMonth (pad2 M ++ r) = some (M, r) := by
  have e1 := dc_toNat (M / 10)
  have e2 := dc_toNat M
  simp only [pad2, List.cons_append, List.nil_append, parseMonth, cv, isD]
  rw [e1, e2]
  split_ifs with hA hB hC
  · simp only [Option.some.injEq, Prod.mk.injEq]; exact ⟨by omega, trivial⟩
  · simp only [Option.some.injEq, Prod.mk.injEq]; exact ⟨by omega, trivial⟩
  · exfalso; omega
  · exfalso; omega

theorem parseDay_pad (D : Nat) (h1 : 1 ≤ D) (h2 : D ≤ 31) (r : List Char) :
    parseDay (pad2 D ++ r) = some (D, r) := by
  have e1 := dc_toNat (D / 10)
  have e2 := dc_toNat D
  simp only [pad2, List.cons_append, List.nil_append, parseDay, cv, isD]
  rw [e1, e2]
  split_ifs with hA hB hC hE
  · simp only [Option.some.injEq, Prod.mk.injEq]; exact ⟨by omega, trivial⟩
  · simp only [Option.some.injEq, Prod.mk.injEq]; exact ⟨by omega, trivial⟩
  · simp only [Option.some.injEq, Prod.mk.injEq]; exact ⟨by omega, trivial⟩
  · exfalso; omega
  · exfalso; omega

theorem parseHour_pad (h : Nat) (hh : h ≤ 23) (r : List Char) :
    parseHour (pad2 h ++ r) = some (h, r) := by
  have e1 := dc_toNat (h / 10)
  have e2 := dc_toNat h
  simp only [pad2, List.cons_append, List.nil_append, parseHour, cv, isD]
  rw [e1, e2]
  split_ifs with hA hB hC
  · simp only [Option.some.injEq, Prod.mk.injEq]; exact ⟨by omega, trivial⟩
  · simp only [Option.some.injEq, Prod.mk.injEq]; exact ⟨by omega, trivial⟩
  · exfalso; omega
  · exfalso; omega

theorem parseMinute_pad (m : Nat) (hm : m ≤ 59) (r : List Char) :
    parseMinute (pad2 m ++ r) = some (m, r) := by
  have e1 := dc_toNat (m / 10)
  have e2 := dc_toNat m
  simp only [pad2, List.cons_append, List.nil_append, parseMinute, cv, isD]
  rw [e1, e2]
  split_ifs with hA hB
  · simp only [Option.some.injEq, Prod.mk.injEq]; exact ⟨by omega, trivial⟩
  · exfalso; omega
  · exfalso; omega

theorem parseSecond_pad (s : Nat) (hs : s ≤ 59) (r : List Char) :
    parseSecond (pad2 s ++ r) = some (s, r) := by
  have e1 := dc_toNat (s / 10)
  have e2 := dc_toNat s
  simp only [pad2, List.cons_append, List.nil_append, parseSecond, cv, isD]
  rw [e1, e2]
  split_ifs with hA hB hC
  · exfalso; omega
  · simp only [Option.some.injEq, Prod.mk.injEq]; exact ⟨by omega, trivial⟩
  · exfalso; omega
  · exfalso; omega

theorem parseLit_dash (r : List Char) : parseLit '-' ('-' :: r) = some r := rfl

theorem parseLit_T (r : List Char) : parseLit 'T' ('T' :: r) = some r := rfl

theorem parseLit_colon (r : List Char) : parseLit ':' (':' :: r) = some r := rfl

theorem parseLit_Z (r : List Char) : parseLit 'Z' ('Z' :: r) = some r := rfl

theorem daysInMonth_le (y m : Nat) : daysInMonth y m ≤ 31 := by
  unfold daysInMonth
  split_ifs <;> omega

theorem runFmt_fmtZ (Y M D h m s : Nat) (hY : Y ≤ 9999)
    (hM1 : 1 ≤ M) (hM : M ≤ 12) (hD1 : 1 ≤ D) (hD : D ≤ 31)
    (hh : h ≤ 23) (hm : m ≤ 59) (hs : s ≤ 59) :
    runFmt (fmtZ Y M D h m s).data = some ⟨Y, M, D, h, m, s, false⟩ := by
  show runFmt (pad4 Y ++ ('-' :: (pad2 M ++ ('-' :: (pad2 D ++ ('T' :: (pad2 h ++
    (':' :: (pad2 m ++ (':' :: (pad2 s ++ ['Z']))))))))))) =
    some ⟨Y, M, D, h, m, s, false⟩
  simp only [runFmt, parse4_pad Y hY, parseMonth_pad M hM1 hM, parseDay_pad D hD1 hD,
    parseHour_pad h hh, parseMinute_pad m hm, parseSecond_pad s hs,
    parseLit_dash, parseLit_T, parseLit_colon, parseLit_Z, Option.some_bind]
  exact if_pos trivial

theorem strptimeZ_fmtZ (Y M D h m s : Nat) (hY1 : 1 ≤ Y) (hY : Y ≤ 9999)
    (hM1 : 1 ≤ M) (hM : M ≤ 12) (hD1 : 1 ≤ D) (hD : D ≤ daysInMonth Y M)
    (hh : h ≤ 23) (hm : m ≤ 59) (hs : s ≤ 59) :
    strptimeZ (fmtZ Y M D h m s) = .ok ⟨Y, M, D, h, m, s, false⟩ := by
  have hD31 : D ≤ 31 := le_trans hD (daysInMonth_le Y M)
  unfold strptimeZ
  rw [runFmt_fmtZ Y M D h m s hY hM1 hM hD1 hD31 hh hm hs]
  exact if_pos ⟨hY1, hY, hM1, hM, hD1, hD, hh, hm, hs⟩

theorem to_dt_fmtZ (Y M D h m s : Nat) (hY1 : 1 ≤ Y) (hY : Y ≤ 9999)
    (hM1 : 1 ≤ M) (hM : M ≤ 12) (hD1 : 1 ≤ D) (hD : D ≤ daysInMonth Y M)
    (hh : h ≤ 23) (hm : m ≤ 59) (hs : s ≤ 59) :
    to_dt (some (fmtZ Y M D h m s)) = .ok (some ⟨Y, M, D, h, m, s, true⟩) := by
  simp only [to_dt]
  rw [strptimeZ_fmtZ Y M D h m s hY1 hY hM1 hM hD1 hD hh hm hs]
  rfl

/-! Concrete payloads (the spec's worked example, §8 of the spec). -/

def ipswPayload : List (String × JVal) :=
  [("identifier", .str "iPhone12,1"), ("buildid", .str "19A5297e"),
   ("version", .str "15.0"), ("url", .str "http://x/fw.ipsw"),
   ("filesize", .int 1000), ("sha1sum", .str "a"), ("md5sum", .str "b"),
   ("releasedate", .pynone), ("uploaddate", .str "2021-09-20T18:00:00Z"),
   ("signed", .bool true)]

/-- The record `IPSW(**ipswPayload)` evaluates to. -/
def ipswRecord : IPSW :=
  { identifier := .str "iPhone12,1", buildid := .str "19A5297e",
    version := .str "15.0", url := .str "http://x/fw.ipsw",
    filesize := .int 1000, sha1sum := .str "a", md5sum := .str "b",
    releasedate := Option.none, uploaddate := some ⟨2021, 9, 20, 18, 0, 0, true⟩,
    signed := .bool true }

def otaPayload : List (String × JVal) :=
  [("identifier", .str "iPhone12,1"), ("buildid", .str "19B74"),
   ("version", .str "15.1"), ("url", .str "http://x/ota.zip"),
   ("filesize", .int 2000), ("prerequisitebuildid", .str "19A346"),
   ("prerequisiteversion", .str "15.0"), ("release_type", .str "Public"),
   ("uploaddate", .str "2021-09-20T18:00:00Z"), ("releasedate", .pynone),
   ("signed", .bool true)]

def otaRecord : OTA :=
  { identifier := .str "iPhone12,1", buildid := .str "19B74",
    version := .str "15.1", url := .str "http://x/ota.zip",
    filesize := .int 2000, prerequisitebuildid := .str "19A346",
    prerequisiteversion := .str "15.0", release_type := .str "Public",
    uploaddate := some ⟨2021, 9, 20, 18, 0, 0, true⟩, releasedate := Option.none,
    signed := .bool true }

def keyPayload : List (String × JVal) :=
  [("image", .str "GlyphCharging"), ("filename", .str "Firmware/all_flash/glyph.img3"),
   ("kbag", .str "kb"), ("key", .str "kk"), ("iv", .str "vv"),
   ("date", .str "2021-09-20T18:00:00Z")]

def keyRecord : FirmwareKeys :=
  { image := .str "GlyphCharging", filename := .str "Firmware/all_flash/glyph.img3",
    kbag := .str "kb", key := .str "kk", iv := .str "vv",
    date := some ⟨2021, 9, 20, 18, 0, 0, true⟩ }

/-! Plumbing lemmas about `Except`, `buildList`, `getF`, `setKey`. -/

theorem exbind_ok {α β : Type} (a : α) (g : α → Except PyError β) :
    (Except.ok a >>= g) = g a := rfl

theorem exbind_error {α β : Type} (e : PyError) (g : α → Except PyError β) :
    ((Except.error e : Except PyError α) >>= g) = Except.error e := rfl

theorem buildList_ok_length {α β : Type} (f : α → Except PyError β) :
    ∀ (xs : List α) (ys : List β), buildList f xs = .ok ys → ys.length = xs.length := by
  intro xs
  induction xs with
  | nil =>
    intro ys hy
    simp only [buildList] at hy
    cases hy
    rfl
  | cons x xs ih =>
    intro ys hy
    cases hfx : f x with
    | error e =>
      rw [buildList, hfx, exbind_error] at hy
      exact Except.noConfusion hy
    | ok y =>
      cases hrec : buildList f xs with
      | error e =>
        rw [buildList, hfx, exbind_ok, hrec, exbind_error] at hy
        exact Except.noConfusion hy
      | ok ys2 =>
        rw [buildList, hfx, exbind_ok, hrec, exbind_ok] at hy
        cases hy
        simp only [List.length_cons, ih ys2 hrec]

theorem buildList_ok_get {α β : Type} (f : α → Except PyError β) :
    ∀ (xs : List α) (ys : List β), buildList f xs = .ok ys →
      ∀ i (h1 : i < xs.length) (h2 : i < ys.length),
        f (xs.get ⟨i, h1⟩) = .ok (ys.get ⟨i, h2⟩) := by
  intro xs
  induction xs with
  | nil =>
    intro ys hy i h1 h2
    exact absurd h1 (by simp)
  | cons x xs ih =>
    intro ys hy i h1 h2
    cases hfx : f x with
    | error e =>
      rw [buildList, hfx, exbind_error] at hy
      exact Except.noConfusion hy
    | ok y =>
      cases hrec : buildList f xs with
      | error e =>
        rw [buildList, hfx, exbind_ok, hrec, exbind_error] at hy
        exact Except.noConfusion hy
      | ok ys2 =>
        rw [buildList, hfx, exbind_ok, hrec, exbind_ok] at hy
        cases hy
        cases i with
        | zero => simpa using hfx
        | succ j => exact ih ys2 hrec j (by simpa using h1) (by simpa using h2)

theorem buildList_ok_mem {α β : Type} (f : α → Except PyError β) :
    ∀ (xs : List α) (ys : List β), buildList f xs = .ok ys →
      ∀ y ∈ ys, ∃ x ∈ xs, f x = .ok y := by
  intro xs
  induction xs with
  | nil =>
    intro ys hy y hmem
    simp only [buildList] at hy
    cases hy
    exact absurd hmem (by simp)
  | cons x xs ih =>
    intro ys hy y hmem
    cases hfx : f x with
    | error e =>
      rw [buildList, hfx, exbind_error] at hy
      exact Except.noConfusion hy
    | ok y0 =>
      cases hrec : buildList f xs with
      | error e =>
        rw [buildList, hfx, exbind_ok, hrec, exbind_error] at hy
        exact Except.noConfusion hy
      | ok ys2 =>
        rw [buildList, hfx, exbind_ok, hrec, exbind_ok] at hy
        cases hy
        rcases List.mem_cons.mp hmem with h | h
        · exact ⟨x, List.mem_cons_self x xs, by rw [hfx, h]⟩
        · obtain ⟨x0, hx0, hfx0⟩ := ih ys2 hrec y h
          exact ⟨x0, List.mem_cons_of_mem x hx0, hfx0⟩

theorem getF_mapReplace :
    ∀ (m : List (String × PyVal)) (k : String) (v dflt : PyVal),
      m.any (fun kv => kv.1 == k) = true →
      getF (m.map (fun kv => if kv.1 == k then (kv.1, v) else kv)) k dflt = v := by
  intro m
  induction m with
  | nil => intro k v dflt hany; simp at hany
  | cons kv m ih =>
    intro k v dflt hany
    by_cases hk : kv.1 == k
    · rw [List.map_cons, if_pos hk]
      unfold getF
      rw [List.find?_cons_of_pos]
      exact hk
    · rw [Bool.not_eq_true] at hk
      simp only [List.any_cons, hk, Bool.false_or] at hany
      rw [List.map_cons, if_neg (by rw [hk]; exact Bool.false_ne_true)]
      unfold getF
      rw [List.find?_cons_of_neg]
      · simpa only [getF] using ih k v dflt hany
      · simp [hk]

theorem getF_appendNew :
    ∀ (m : List (String × PyVal)) (k : String) (v dflt : PyVal),
      m.any (fun kv => kv.1 == k) = false →
      getF (m ++ [(k, v)]) k dflt = v := by
  intro m
  induction m with
  | nil =>
    intro k v dflt hany
    simp [getF, List.find?]
  | cons kv m ih =>
    intro k v dflt hany
    simp only [List.any_cons, Bool.or_eq_false_iff] at hany
    simp only [List.cons_append, getF, List.find?]
    rw [hany.1]
    exact ih k v dflt hany.2

theorem getF_setKey (m : List (String × PyVal)) (k : String) (v dflt : PyVal) :
    getF (setKey m k v) k dflt = v := by
  unfold setKey
  by_cases hany : m.any (fun kv => kv.1 == k) = true
  · rw [if_pos hany]
    exact getF_mapReplace m k v dflt hany
  · rw [if_neg hany]
    rw [Bool.not_eq_true] at hany
    exact getF_appendNew m k v dflt hany

theorem getF_liftMap (m : List (String × JVal)) (k : String) (dflt : JVal) :
    ∃ v, getF (liftMap m) k (.j dflt) = .j v := by
  induction m with
  | nil => exact ⟨dflt, rfl⟩
  | cons kv m ih =>
    by_cases hk : kv.1 == k
    · refine ⟨kv.2, ?_⟩
      rw [liftMap, List.map_cons]
      unfold getF
      rw [List.find?_cons_of_pos]
      exact hk
    · rw [Bool.not_eq_true] at hk
      obtain ⟨v, hv⟩ := ih
      refine ⟨v, ?_⟩
      rw [liftMap, List.map_cons]
      unfold getF
      rw [List.find?_cons_of_neg]
      · simpa only [liftMap, getF] using hv
      · simp [hk]

/-! Argument-binding behavior of the dataclass constructors. -/

theorem checkArgs_missing {α : Type} (recName : String) (slots : List String)
    (m : List (String × α)) (f : String) (hf : f ∈ slots)
    (hall : ∀ kv ∈ m, kv.1 ∈ slots) (hmiss : ∀ kv ∈ m, kv.1 ≠ f) :
    checkArgs recName slots m =
      .error (.missingArgs recName
        (slots.filter (fun g => !((m.map Prod.fst).contains g)))) ∧
    f ∈ slots.filter (fun g => !((m.map Prod.fst).contains g)) := by
  have hfind : m.find? (fun kv => !(slots.contains kv.1)) = Option.none := by
    apply List.find?_eq_none.mpr
    intro kv hkv
    simp [hall kv hkv]
  have hfmem : f ∈ slots.filter (fun g => !((m.map Prod.fst).contains g)) := by
    apply List.mem_filter.mpr
    refine ⟨hf, ?_⟩
    have : f ∉ m.map Prod.fst := by
      intro hin
      obtain ⟨kv, hkv, heq⟩ := List.mem_map.mp hin
      exact hmiss kv hkv heq
    simp [this]
  refine ⟨?_, hfmem⟩
  unfold checkArgs
  rw [hfind]
  cases hfil : slots.filter (fun g => !((m.map Prod.fst).contains g)) with
  | nil => rw [hfil] at hfmem; exact absurd hfmem (by simp)
  | cons a l => rfl

theorem checkArgs_unexpected {α : Type} (recName : String) (slots : List String)
    (m : List (String × α)) (k : String) (v : α)
    (hkv : (k, v) ∈ m) (hk : k ∉ slots) :
    ∃ kBad, checkArgs recName slots m = .error (.unexpectedKw recName kBad) ∧
      kBad ∉ slots := by
  have hsome : (m.find? (fun kv => !(slots.contains kv.1))).isSome := by
    rw [List.find?_isSome]
    exact ⟨(k, v), hkv, by simp [hk]⟩
  obtain ⟨kv0, hkv0⟩ := Option.isSome_iff_exists.mp hsome
  have hp := List.find?_some hkv0
  refine ⟨kv0.1, ?_, ?_⟩
  · unfold checkArgs
    rw [hkv0]
  · simpa using hp

/-! Success decompositions of the composite operations. -/

theorem mkiDevice_ok_firmwares (m : List (String × PyVal)) (d : iDevice)
    (hq : mkiDevice m = .ok d) : d.firmwares = getF m "firmwares" (.j .pynone) := by
  unfold mkiDevice at hq
  cases hc : checkArgs "iDevice" iDeviceSlots m with
  | error e => rw [hc, exbind_error] at hq; exact Except.noConfusion hq
  | ok u =>
    rw [hc, exbind_ok] at hq
    cases hq
    rfl

theorem mkDeviceKeys_ok_keys (m : List (String × PyVal)) (d : DeviceKeys)
    (hq : mkDeviceKeys m = .ok d) : d.keys = getF m "keys" (.j .pynone) := by
  unfold mkDeviceKeys at hq
  cases hc : checkArgs "DeviceKeys" deviceKeysSlots m with
  | error e => rw [hc, exbind_error] at hq; exact Except.noConfusion hq
  | ok u =>
    rw [hc, exbind_ok] at hq
    cases hq
    rfl

theorem device_ok_decompose (data : List (String × JVal)) (d : iDevice)
    (hq : HALFTIME.device (.obj data) = .ok d) :
    ∃ fwv items fl, pyLookup data "firmwares" = .ok fwv ∧ pyIter fwv = .ok items ∧
      buildList (fun x => jAsObj x >>= mkIPSW) items = .ok fl ∧
      mkiDevice (setKey (liftMap data) "firmwares" (.ipswList fl)) = .ok d := by
  unfold HALFTIME.device at hq
  rw [show jAsObj (.obj data) = .ok data from rfl, exbind_ok] at hq
  cases h1 : pyLookup data "firmwares" with
  | error e => rw [h1, exbind_error] at hq; exact Except.noConfusion hq
  | ok fwv =>
    rw [h1, exbind_ok] at hq
    cases h2 : pyIter fwv with
    | error e => rw [h2, exbind_error] at hq; exact Except.noConfusion hq
    | ok items =>
      rw [h2, exbind_ok] at hq
      cases h3 : buildList (fun x => jAsObj x >>= mkIPSW) items with
      | error e => rw [h3, exbind_error] at hq; exact Except.noConfusion hq
      | ok fl =>
        rw [h3, exbind_ok] at hq
        exact ⟨fwv, items, fl, rfl, h2, h3, hq⟩

theorem keys_ok_decompose (data : List (String × JVal)) (d : DeviceKeys)
    (hq : HALFTIME.keys (.obj data) = .ok d) :
    ∃ kv items kl, pyLookup data "keys" = .ok kv ∧ pyIter kv = .ok items ∧
      buildList (fun x => jAsObj x >>= mkFirmwareKeys) items = .ok kl ∧
      mkDeviceKeys (setKey (liftMap data) "keys" (.keyList kl)) = .ok d := by
  unfold HALFTIME.keys at hq
  rw [show jAsObj (.obj data) = .ok data from rfl, exbind_ok] at hq
  cases h1 : pyLookup data "keys" with
  | error e => rw [h1, exbind_error] at hq; exact Except.noConfusion hq
  | ok kv =>
    rw [h1, exbind_ok] at hq
    cases h2 : pyIter kv with
    | error e => rw [h2, exbind_error] at hq; exact Except.noConfusion hq
    | ok items =>
      rw [h2, exbind_ok] at hq
      cases h3 : buildList (fun x => jAsObj x >>= mkFirmwareKeys) items with
      | error e => rw [h3, exbind_error] at hq; exact Except.noConfusion hq
      | ok kl =>
        rw [h3, exbind_ok] at hq
        exact ⟨kv, items, kl, rfl, h2, h3, hq⟩

theorem ipsw_version_list (xs : List JVal) :
    HALFTIME.ipsw_version (.list xs) = buildList (fun x => jAsObj x >>= mkIPSW) xs := rfl

theorem ota_version_list (xs : List JVal) :
    HALFTIME.ota_version (.list xs) = buildList (fun x => jAsObj x >>= mkOTA) xs := rfl

theorem keys_device_list (xs : List JVal) :
    HALFTIME.keys_device (.list xs) =
      buildList (fun x => jAsObj x >>= fun m => mkDeviceKeys (liftMap m)) xs := rfl

/-- C1: invoking any operation of the operation set through the facade with
a fixed argument tuple and transport response returns, outside a running
scheduler, the finished typed result directly (an operation failure is the
error of that finished result, raised at the call site, never a pending unit
of work), and inside a running scheduler a pending, not-yet-executed unit of
work whose await yields exactly the blocking-mode result. -/
theorem C1_dual_mode_facade :
    (∀ (op : Op) (resp : JVal),
      Client.invoke false op resp = .finished (execOp op resp)) ∧
    (∀ (op : Op) (resp : JVal), ∃ t, Client.invoke true op resp = .pending t ∧
      awaitPending t = execOp op resp) :=
  ⟨fun _ _ => rfl, fun op resp => ⟨fun _ => execOp op resp, rfl, rfl⟩⟩

/-- C2: for every timestamp field, an absent input passes through as absent,
and a string exactly in the `YYYY-MM-DDTHH:MM:SSZ` format (canonically
`fmtZ` of in-range components) parses to an instant with exactly those
components, bound explicitly to UTC; this is the behavior of the
`releasedate`/`uploaddate` fields of `IPSW` and `OTA` and the `date` field of
`FirmwareKeys`, as the three concrete record constructions show. -/
theorem C2_date_normalization :
    (to_dt Option.none = .ok Option.none) ∧
    (∀ Y M D h m s : Nat, 1 ≤ Y → Y ≤ 9999 → 1 ≤ M → M ≤ 12 → 1 ≤ D →
      D ≤ daysInMonth Y M → h ≤ 23 → m ≤ 59 → s ≤ 59 →
      to_dt (some (fmtZ Y M D h m s)) = .ok (some ⟨Y, M, D, h, m, s, true⟩)) ∧
    (mkIPSW ipswPayload = .ok ipswRecord) ∧
    (mkOTA otaPayload = .ok otaRecord) ∧
    (mkFirmwareKeys keyPayload = .ok keyRecord) := by
  refine ⟨rfl, ?_, rfl, rfl, rfl⟩
  intro Y M D h m s hY1 hY hM1 hM hD1 hD hh hm hs
  exact to_dt_fmtZ Y M D h m s hY1 hY hM1 hM hD1 hD hh hm hs

/-- Witness for C2 at the spec's example `"2021-09-20T18:00:00Z"`. -/
theorem C2_date_normalization_witness :
    to_dt (some (fmtZ 2021 9 20 18 0 0)) = .ok (some ⟨2021, 9, 20, 18, 0, 0, true⟩) ∧
    fmtZ 2021 9 20 18 0 0 = "2021-09-20T18:00:00Z" :=
  ⟨C2_date_normalization.2.1 2021 9 20 18 0 0 (by omega) (by omega) (by omega)
    (by omega) (by omega) (by decide) (by omega) (by omega) (by omega), rfl⟩

/-- C3 counterexample: `"2021-9-20T18:00:00Z"` is not exactly in the
`YYYY-MM-DDTHH:MM:SSZ` format (the month is not zero-padded), yet `to_dt`
silently coerces it into an instant instead of raising: the claim "no string
outside the exact format is coerced" is false of the code. -/
theorem C3_exact_format_counterexample :
    specExactFormat "2021-9-20T18:00:00Z" = false ∧
    to_dt (some "2021-9-20T18:00:00Z") = .ok (some ⟨2021, 9, 20, 18, 0, 0, true⟩) :=
  ⟨rfl, rfl⟩

/-- C3 amended: a string the (lenient) fixed-format parser rejects raises a
normalization error — in particular `"2021-09-20"` raises — and no string is
silently passed through: every successful parse yields a UTC-bound instant.
The parser is however lenient beyond the exact zero-padded format (e.g.
unpadded fields, lowercase `t`/`z`), so not every string outside the exact
format raises. -/
theorem C3_amended_parser_rejection :
    (to_dt (some "2021-09-20") = .error .valueError) ∧
    (∀ s r, to_dt (some s) = .ok r → ∃ d, r = some d ∧ d.tzutc = true) ∧
    (∀ s, strptimeZ s = .error .valueError → to_dt (some s) = .error .valueError) := by
  refine ⟨rfl, ?_, ?_⟩
  · intro s r hq
    simp only [to_dt] at hq
    cases hs : strptimeZ s with
    | error e =>
      rw [hs] at hq
      exact Except.noConfusion hq
    | ok dt =>
      rw [hs] at hq
      simp only [Except.map] at hq
      cases hq
      exact ⟨{ dt with tzutc := true }, rfl, rfl⟩
  · intro s hs
    simp only [to_dt]
    rw [hs]
    rfl

/-- Witness for C3's amended claim. -/
theorem C3_amended_parser_rejection_witness :
    to_dt (some "2021-09-20T18:00:00Z") = .ok (some ⟨2021, 9, 20, 18, 0, 0, true⟩) ∧
    (∃ d, (some (⟨2021, 9, 20, 18, 0, 0, true⟩ : PyDateTime)) = some d ∧ d.tzutc = true) ∧
    (strptimeZ "2021-09-20" = .error .valueError ∧
      to_dt (some "2021-09-20") = .error .valueError) :=
  ⟨rfl, C3_amended_parser_rejection.2.1 "2021-09-20T18:00:00Z" _ rfl,
   rfl, C3_amended_parser_rejection.2.2 "2021-09-20" rfl⟩

/-- C9: for every transport response text, the OTA documentation lookup does
bypass normalization, but it prints the decoded text and returns `None` to
the caller instead of returning the text as its result. -/
theorem C9_ota_docs_returns_none :
    ∀ text : String, (ota_docs text).1 = Option.none ∧ (ota_docs text).2 = [text] :=
  fun _ => ⟨rfl, rfl⟩

/-- C4: for any record type (generic over the declared slot list, which is
how every dataclass here is built) and any payload over declared keys that
omits a declared field, construction raises the missing-arguments error
naming the record type and containing the missing field's name (all missing
fields, in declaration order); no default is substituted. Concretely,
dropping `signed` from an `IPSW` payload raises the `IPSW` error naming
`signed`. -/
theorem C4_missing_required_field :
    (∀ (α : Type) (recName : String) (slots : List String)
      (m : List (String × α)) (f : String), f ∈ slots →
      (∀ kv ∈ m, kv.1 ∈ slots) → (∀ kv ∈ m, kv.1 ≠ f) →
      checkArgs recName slots m =
        .error (.missingArgs recName
          (slots.filter (fun g => !((m.map Prod.fst).contains g)))) ∧
      f ∈ slots.filter (fun g => !((m.map Prod.fst).contains g))) ∧
    (mkIPSW (ipswPayload.filter (fun kv => kv.1 != "signed")) =
      .error (.missingArgs "IPSW" ["signed"])) := by
  refine ⟨?_, rfl⟩
  intro α recName slots m f hf hall hmiss
  exact checkArgs_missing recName slots m f hf hall hmiss

/-- Witness for C4: the `IPSW` payload without `signed`. -/
theorem C4_missing_required_field_witness :
    ("signed" ∈ ipswSlots ∧
     (∀ kv ∈ ipswPayload.filter (fun kv => kv.1 != "signed"), kv.1 ∈ ipswSlots) ∧
     (∀ kv ∈ ipswPayload.filter (fun kv => kv.1 != "signed"), kv.1 ≠ "signed")) ∧
    (checkArgs "IPSW" ipswSlots (ipswPayload.filter (fun kv => kv.1 != "signed")) =
       .error (.missingArgs "IPSW" (ipswSlots.filter (fun g =>
         !(((ipswPayload.filter (fun kv => kv.1 != "signed")).map Prod.fst).contains g)))) ∧
     "signed" ∈ ipswSlots.filter (fun g =>
         !(((ipswPayload.filter (fun kv => kv.1 != "signed")).map Prod.fst).contains g))) :=
  ⟨⟨by decide, by decide, by decide⟩,
   C4_missing_required_field.1 JVal "IPSW" ipswSlots
     (ipswPayload.filter (fun kv => kv.1 != "signed")) "signed"
     (by decide) (by decide) (by decide)⟩

/-- C10: a payload containing a key that is not a declared field of the
target record makes construction raise the unexpected-keyword error (for
some undeclared key — the first such in payload order) rather than ignoring
it. Concretely an extra `foo` key makes `IPSW` construction fail naming
`foo`. -/
theorem C10_unexpected_key :
    (∀ (α : Type) (recName : String) (slots : List String)
      (m : List (String × α)) (k : String) (v : α), (k, v) ∈ m → k ∉ slots →
      ∃ kBad, checkArgs recName slots m = .error (.unexpectedKw recName kBad) ∧
        kBad ∉ slots) ∧
    (mkIPSW (ipswPayload ++ [("foo", JVal.int 1)]) =
      .error (.unexpectedKw "IPSW" "foo")) := by
  refine ⟨?_, rfl⟩
  intro α recName slots m k v hkv hk
  exact checkArgs_unexpected recName slots m k v hkv hk

/-- Witness for C10: the `IPSW` payload with an extra `foo` key. -/
theorem C10_unexpected_key_witness :
    (("foo", JVal.int 1) ∈ ipswPayload ++ [("foo", JVal.int 1)] ∧ "foo" ∉ ipswSlots) ∧
    (∃ kBad, checkArgs "IPSW" ipswSlots (ipswPayload ++ [("foo", JVal.int 1)]) =
      .error (.unexpectedKw "IPSW" kBad) ∧ kBad ∉ ipswSlots) :=
  ⟨⟨List.mem_append_right _ (List.mem_singleton.mpr rfl), by decide⟩,
   C10_unexpected_key.1 JVal "IPSW" ipswSlots (ipswPayload ++ [("foo", JVal.int 1)])
     "foo" (JVal.int 1) (List.mem_append_right _ (List.mem_singleton.mpr rfl))
     (by decide)⟩

/-- C5: the three list-valued operations map record construction over the
decoded sequence element-wise and in order (the i-th output is built from
the i-th input mapping), and the empty sequence yields the empty sequence,
not an error. -/
theorem C5_list_endpoints :
    (HALFTIME.ipsw_version (.list []) = .ok []) ∧
    (HALFTIME.ota_version (.list []) = .ok []) ∧
    (HALFTIME.keys_device (.list []) = .ok []) ∧
    (∀ xs ys, HALFTIME.ipsw_version (.list xs) = .ok ys →
      ys.length = xs.length ∧ ∀ i (h1 : i < xs.length) (h2 : i < ys.length),
        (jAsObj (xs.get ⟨i, h1⟩) >>= mkIPSW) = .ok (ys.get ⟨i, h2⟩)) ∧
    (∀ xs ys, HALFTIME.ota_version (.list xs) = .ok ys →
      ys.length = xs.length ∧ ∀ i (h1 : i < xs.length) (h2 : i < ys.length),
        (jAsObj (xs.get ⟨i, h1⟩) >>= mkOTA) = .ok (ys.get ⟨i, h2⟩)) ∧
    (∀ xs ys, HALFTIME.keys_device (.list xs) = .ok ys →
      ys.length = xs.length ∧ ∀ i (h1 : i < xs.length) (h2 : i < ys.length),
        (jAsObj (xs.get ⟨i, h1⟩) >>= fun m => mkDeviceKeys (liftMap m)) =
          .ok (ys.get ⟨i, h2⟩)) := by
  refine ⟨rfl, rfl, rfl, ?_, ?_, ?_⟩
  · intro xs ys hq
    rw [ipsw_version_list] at hq
    exact ⟨buildList_ok_length _ xs ys hq,
      fun i h1 h2 => buildList_ok_get _ xs ys hq i h1 h2⟩
  · intro xs ys hq
    rw [ota_version_list] at hq
    exact ⟨buildList_ok_length _ xs ys hq,
      fun i h1 h2 => buildList_ok_get _ xs ys hq i h1 h2⟩
  · intro xs ys hq
    rw [keys_device_list] at hq
    exact ⟨buildList_ok_length _ xs ys hq,
      fun i h1 h2 => buildList_ok_get _ xs ys hq i h1 h2⟩

/-- Witness for C5 on a one-element firmware list. -/
theorem C5_list_endpoints_witness :
    HALFTIME.ipsw_version (.list [.obj ipswPayload]) = .ok [ipswRecord] ∧
    ([ipswRecord].length = [JVal.obj ipswPayload].length ∧
      ∀ i (h1 : i < [JVal.obj ipswPayload].length) (h2 : i < [ipswRecord].length),
        (jAsObj ([JVal.obj ipswPayload].get ⟨i, h1⟩) >>= mkIPSW) =
          .ok ([ipswRecord].get ⟨i, h2⟩)) :=
  ⟨rfl, C5_list_endpoints.2.2.2.1 [.obj ipswPayload] [ipswRecord] rfl⟩

/-! Concrete composite payloads (spec §8: a device payload with a 2-element
firmware list and a keyset payload with a 3-element key list). -/

def ipswPayloadB : List (String × JVal) :=
  [("identifier", .str "iPhone12,1"), ("buildid", .str "18H17"),
   ("version", .str "14.8"), ("url", .str "http://x/fw2.ipsw"),
   ("filesize", .int 2000), ("sha1sum", .str "c"), ("md5sum", .str "d"),
   ("releasedate", .str "2021-09-13T17:00:00Z"),
   ("uploaddate", .str "2021-09-13T17:00:00Z"), ("signed", .bool false)]

def devicePayload : List (String × JVal) :=
  [("name", .str "iPhone 11"), ("identifier", .str "iPhone12,1"),
   ("boardconfig", .str "D421AP"), ("platform", .str "t8030"),
   ("cpid", .str "0x8030"), ("bdid", .str "0x08"),
   ("firmwares", .list [.obj ipswPayload, .obj ipswPayloadB]),
   ("boards", .list [])]

def keyPayloadB : List (String × JVal) :=
  [("image", .str "RestoreRamDisk"), ("filename", .str "Firmware/dfu/rrd.dmg"),
   ("kbag", .str "kb2"), ("key", .str "kk2"), ("iv", .str "vv2"),
   ("date", .pynone)]

def keyPayloadC : List (String × JVal) :=
  [("image", .str "UpdateRamDisk"), ("filename", .str "Firmware/dfu/urd.dmg"),
   ("kbag", .str "kb3"), ("key", .str "kk3"), ("iv", .str "vv3"),
   ("date", .pynone)]

def keySetPayload : List (String × JVal) :=
  [("identifier", .str "iPhone12,1"), ("buildid", .str "19A5297e"),
   ("codename", .str "SkyFall"), ("baseband", .pynone),
   ("updateramdiskexists", .bool true), ("restoreramdiskexists", .bool true),
   ("keys", .list [.obj keyPayload, .obj keyPayloadB, .obj keyPayloadC])]

/-- Whether a stored field value is a typed list of per-image Key records. -/
def isTypedKeyList : PyVal → Bool
  | .keyList _ => true
  | _ => false

/-- The `keys` field of any `DeviceKeys` built by `IPSWKeys(**keys)` over a
raw mapping holds a raw payload value, never a typed Key-record list. -/
theorem mkDeviceKeys_liftMap_raw (m : List (String × JVal)) (dk : DeviceKeys)
    (hq : mkDeviceKeys (liftMap m) = .ok dk) : ∃ v, dk.keys = PyVal.j v := by
  obtain ⟨v, hv⟩ := getF_liftMap m "keys" JVal.pynone
  refine ⟨v, ?_⟩
  rw [mkDeviceKeys_ok_keys _ dk hq]
  exact hv

/-- C6: for the two composite operations, a successful normalization first
converts every element of the nested list field into a typed sub-record
(the i-th sub-record built from the i-th nested mapping, same length) and
substitutes the converted list back before constructing the outer record,
whose nested field is exactly that typed list. -/
theorem C6_composite_normalization :
    (∀ data d, HALFTIME.device (.obj data) = .ok d →
      ∃ fwv items fl, pyLookup data "firmwares" = .ok fwv ∧ pyIter fwv = .ok items ∧
        buildList (fun x => jAsObj x >>= mkIPSW) items = .ok fl ∧
        d.firmwares = PyVal.ipswList fl ∧ fl.length = items.length ∧
        (∀ i (h1 : i < items.length) (h2 : i < fl.length),
          (jAsObj (items.get ⟨i, h1⟩) >>= mkIPSW) = .ok (fl.get ⟨i, h2⟩))) ∧
    (∀ data d, HALFTIME.keys (.obj data) = .ok d →
      ∃ kv items kl, pyLookup data "keys" = .ok kv ∧ pyIter kv = .ok items ∧
        buildList (fun x => jAsObj x >>= mkFirmwareKeys) items = .ok kl ∧
        d.keys = PyVal.keyList kl ∧ kl.length = items.length ∧
        (∀ i (h1 : i < items.length) (h2 : i < kl.length),
          (jAsObj (items.get ⟨i, h1⟩) >>= mkFirmwareKeys) = .ok (kl.get ⟨i, h2⟩))) := by
  constructor
  · intro data d hq
    obtain ⟨fwv, items, fl, h1, h2, h3, h4⟩ := device_ok_decompose data d hq
    refine ⟨fwv, items, fl, h1, h2, h3, ?_, buildList_ok_length _ items fl h3,
      fun i hi1 hi2 => buildList_ok_get _ items fl h3 i hi1 hi2⟩
    rw [mkiDevice_ok_firmwares _ d h4, getF_setKey]
  · intro data d hq
    obtain ⟨kv, items, kl, h1, h2, h3, h4⟩ := keys_ok_decompose data d hq
    refine ⟨kv, items, kl, h1, h2, h3, ?_, buildList_ok_length _ items kl h3,
      fun i hi1 hi2 => buildList_ok_get _ items kl h3 i hi1 hi2⟩
    rw [mkDeviceKeys_ok_keys _ d h4, getF_setKey]

/-- Witness for C6: the 2-firmware device payload and 3-key keyset payload. -/
theorem C6_composite_normalization_witness :
    (∃ d, HALFTIME.device (.obj devicePayload) = .ok d ∧
      ∃ fwv items fl, pyLookup devicePayload "firmwares" = .ok fwv ∧
        pyIter fwv = .ok items ∧
        buildList (fun x => jAsObj x >>= mkIPSW) items = .ok fl ∧
        d.firmwares = PyVal.ipswList fl ∧ fl.length = items.length ∧
        (∀ i (h1 : i < items.length) (h2 : i < fl.length),
          (jAsObj (items.get ⟨i, h1⟩) >>= mkIPSW) = .ok (fl.get ⟨i, h2⟩))) ∧
    (∃ d, HALFTIME.keys (.obj keySetPayload) = .ok d ∧
      ∃ kv items kl, pyLookup keySetPayload "keys" = .ok kv ∧
        pyIter kv = .ok items ∧
        buildList (fun x => jAsObj x >>= mkFirmwareKeys) items = .ok kl ∧
        d.keys = PyVal.keyList kl ∧ kl.length = items.length ∧
        (∀ i (h1 : i < items.length) (h2 : i < kl.length),
          (jAsObj (items.get ⟨i, h1⟩) >>= mkFirmwareKeys) = .ok (kl.get ⟨i, h2⟩))) :=
  ⟨⟨_, rfl, C6_composite_normalization.1 devicePayload _ rfl⟩,
   ⟨_, rfl, C6_composite_normalization.2 keySetPayload _ rfl⟩⟩

/-- C7 counterexample: the device-keys lookup returns KeySets whose `keys`
field still holds the raw untyped mappings — here a one-KeySet response
whose `keys` value comes back exactly as the raw payload list, not as typed
Key records — so the claim is false for `keys_device`. -/
theorem C7_keys_device_counterexample :
    ∃ dk, HALFTIME.keys_device (.list [.obj keySetPayload]) = .ok [dk] ∧
      isTypedKeyList dk.keys = false ∧
      dk.keys = .j (.list [.obj keyPayload, .obj keyPayloadB, .obj keyPayloadC]) :=
  ⟨_, rfl, rfl, rfl⟩

/-- C7 amended: the firmware-keys lookup (`keys`) returns a KeySet whose
`keys` field is the typed ordered list of per-image Key records, but the
device-keys lookup (`keys_device`) returns KeySets whose `keys` fields hold
the raw upstream values unconverted. -/
theorem C7_amended_keyset_typing :
    (∀ resp dk, HALFTIME.keys resp = .ok dk → ∃ kl, dk.keys = PyVal.keyList kl) ∧
    (∀ m dk, mkDeviceKeys (liftMap m) = .ok dk → ∃ v, dk.keys = PyVal.j v) ∧
    (∀ xs res, HALFTIME.keys_device (.list xs) = .ok res →
      ∀ dk ∈ res, ∃ v, dk.keys = PyVal.j v) := by
  refine ⟨?_, mkDeviceKeys_liftMap_raw, ?_⟩
  · intro resp dk hq
    cases resp with
    | obj data =>
      obtain ⟨kv, items, kl, h1, h2, h3, h4⟩ := keys_ok_decompose data dk hq
      refine ⟨kl, ?_⟩
      rw [mkDeviceKeys_ok_keys _ dk h4, getF_setKey]
    | str s => exact Except.noConfusion hq
    | int n => exact Except.noConfusion hq
    | bool b => exact Except.noConfusion hq
    | pynone => exact Except.noConfusion hq
    | list xs => exact Except.noConfusion hq
  · intro xs res hq dk hdk
    rw [keys_device_list] at hq
    obtain ⟨x, hx, hfx⟩ := buildList_ok_mem _ xs res hq dk hdk
    cases x with
    | obj m =>
      rw [show jAsObj (.obj m) = .ok m from rfl, exbind_ok] at hfx
      exact mkDeviceKeys_liftMap_raw m dk hfx
    | str s => exact Except.noConfusion hfx
    | int n => exact Except.noConfusion hfx
    | bool b => exact Except.noConfusion hfx
    | pynone => exact Except.noConfusion hfx
    | list ys => exact Except.noConfusion hfx

/-- Witness for C7's amended claim at the concrete keyset payload. -/
theorem C7_amended_keyset_typing_witness :
    ∃ dk, HALFTIME.keys (.obj keySetPayload) = .ok dk ∧
      ∃ kl, dk.keys = PyVal.keyList kl :=
  ⟨_, rfl, C7_amended_keyset_typing.1 (.obj keySetPayload) _ rfl⟩

theorem runBlockingCalls_eq (c : ClientState) (e : LoopEnv) :
    ∀ n, runBlockingCalls c e n = (List.replicate n c.loop, e) := by
  intro n
  induction n with
  | zero => rfl
  | succ k ih => simp [runBlockingCalls, blockingCall, List.replicate_succ, ih]

/-- C8: on a thread with no pre-existing event loop, constructing the facade
acquires (and constructs) a loop once, and any sequence of two or more
blocking calls through that instance is driven entirely by that stored loop:
exactly one loop construction happens in total, and every call uses the same
loop handle. -/
theorem C8_scheduler_reuse :
    ∀ (e : LoopEnv) (n : Nat), e.existing = Option.none → 2 ≤ n →
      (runBlockingCalls (clientInit e).1 (clientInit e).2 n).2.created = e.created + 1 ∧
      (runBlockingCalls (clientInit e).1 (clientInit e).2 n).1 =
        List.replicate n (clientInit e).1.loop := by
  intro e n hex hn
  rw [runBlockingCalls_eq]
  refine ⟨?_, rfl⟩
  show (clientInit e).2.created = e.created + 1
  unfold clientInit get_event_loop
  rw [hex]

/-- Witness for C8: a fresh thread state and two blocking calls. -/
theorem C8_scheduler_reuse_witness :
    (⟨Option.none, 0, 0⟩ : LoopEnv).existing = Option.none ∧ 2 ≤ 2 ∧
    (runBlockingCalls (clientInit ⟨Option.none, 0, 0⟩).1
        (clientInit ⟨Option.none, 0, 0⟩).2 2).2.created =
      (⟨Option.none, 0, 0⟩ : LoopEnv).created + 1 ∧
    (runBlockingCalls (clientInit ⟨Option.none, 0, 0⟩).1
        (clientInit ⟨Option.none, 0, 0⟩).2 2).1 =
      List.replicate 2 (clientInit ⟨Option.none, 0, 0⟩).1.loop :=
  ⟨rfl, by omega, C8_scheduler_reuse ⟨Option.none, 0, 0⟩ 2 rfl (by omega)⟩
